import Mathlib

/-!
Shallow embedding of the technical-analysis core of the `fever` repository
(`src/utils/technicalAnalysis.ts`).  That file contains two divergent copies
of the class `TechnicalAnalyzer`; the first (canonical) copy is embedded in
the namespace `Fever.TechnicalAnalyzer`, the second copy in `Fever.V2`.

Modelling conventions:
* JavaScript numbers are modelled as exact rationals `ℚ`.  The well-formed
  inputs of the spec (finite prices, positive closes) never produce `NaN`
  or `Infinity` in the canonical copy, with one exception noted at
  `jsPriceChange` below.  The second copy does produce `NaN` (its nested
  `calculateEMA` returns `NaN` on short input), so its numeric fields are
  modelled as `Option ℚ` (`none` = `NaN`) with JavaScript comparison
  semantics (every comparison with `NaN` is false).
* `Math.round x` is `⌊x + 1/2⌋` and `parseFloat (x.toFixed 5)` is `round5`
  (nearest multiple of `10⁻⁵`, ties towards `+∞`), exactly the ECMAScript
  definitions for the values in range here.
* `Math.log` and `Math.sqrt` (used only by `calculateVolatility`) are
  transcendental; they are supplied by a `FloatOracle` parameter.  Every
  theorem about signals holds for every oracle.
* `Date.now()` is a wall-clock side channel (spec §3 excludes it from the
  decision-relevant state), so the `timestamp` field of a trading signal is
  omitted from the embedded record.
-/

namespace Fever

/-- One OHLCV candle (`ProcessedCandle` / `Candle` in the source). -/
structure Candle where
  timestamp : ℤ
  open_ : ℚ
  high : ℚ
  low : ℚ
  close : ℚ
  volume : ℚ
deriving DecidableEq, Repr

/-- Placeholder candle used to express JavaScript array access at indices
that are in range in all guarded paths (`candles[candles.length - 1]`). -/
def defaultCandle : Candle :=
  { timestamp := 0, open_ := 0, high := 0, low := 0, close := 0, volume := 0 }

inductive Action where
  | BUY | SELL | HOLD
deriving DecidableEq, Repr

inductive Strength where
  | WEAK | MODERATE | STRONG | VERY_STRONG
deriving DecidableEq, Repr

inductive Trend where
  | BULLISH | BEARISH | SIDEWAYS | UNDEFINED
deriving DecidableEq, Repr

inductive Momentum where
  | STRONG_UP | UP | NEUTRAL | DOWN | STRONG_DOWN | UNDEFINED
deriving DecidableEq, Repr

inductive VolLevel where
  | HIGH | MEDIUM | LOW
deriving DecidableEq, Repr

/-- `Math.round`: nearest integer, ties towards `+∞`. -/
def jsRound (q : ℚ) : ℚ := ((⌊q + 1/2⌋ : ℤ) : ℚ)

/-- `parseFloat (x.toFixed 5)`: nearest multiple of `10⁻⁵`, ties towards the
larger numerator, which for the price magnitudes in this program is exact. -/
def round5 (q : ℚ) : ℚ := ((⌊q * 100000 + 1/2⌋ : ℤ) : ℚ) / 100000

/-- The transcendental pieces of `Math` used by `calculateVolatility`.
They influence only the volatility bucket, never the trading signal. -/
structure FloatOracle where
  log : ℚ → ℚ
  sqrt : ℚ → ℚ

/-- The indicator bundle of the canonical copy (`TechnicalIndicators`). -/
structure TechnicalIndicators where
  sma20 : ℚ
  sma50 : ℚ
  ema12 : ℚ
  ema26 : ℚ
  rsi : ℚ
  macd : ℚ
  macdSignal : ℚ
  macdHistogram : ℚ
  atr : ℚ
  volume : ℚ
  avgVolume : ℚ
  trend : Trend
  momentum : Momentum
deriving DecidableEq, Repr

/-- The decision record (`TradingSignal`); the wall-clock `timestamp` field
is omitted (see the module comment). -/
structure TradingSignal where
  action : Action
  confidence : ℚ
  reason : String
  probability : ℚ
  strength : Strength
  entry_price : ℚ
  stop_loss : ℚ
  take_profit : ℚ
deriving DecidableEq, Repr

/-- Top-level output of the canonical copy (`MarketAnalysis`). -/
structure MarketAnalysis where
  trend : Trend
  momentum : Momentum
  volatility : VolLevel
  signals : List TradingSignal
deriving DecidableEq, Repr

namespace TechnicalAnalyzer

/-- `calculateSMA`: mean of the last `period` values; `0` sentinel when the
series is shorter than `period`. -/
def calculateSMA (data : List ℚ) (period : ℕ) : ℚ :=
  if data.length < period then 0
  else (data.drop (data.length - period)).sum / period

/-- `calculateEMA`: seeds with the SMA of the first `period` values, returns
the `0` sentinel when the seed is `0`, then runs the smoothing recurrence
over the remaining values. -/
def calculateEMA (data : List ℚ) (period : ℕ) : ℚ :=
  if data.length < period then 0
  else
    let multiplier : ℚ := 2 / ((period : ℚ) + 1)
    let seed := calculateSMA (data.take period) period
    if seed = 0 then 0
    else (data.drop period).foldl (fun e x => x * multiplier + e * (1 - multiplier)) seed

/-- Indices visited by the gains/losses loop of `calculateRSI`
(`i` from `closes.length - period` to `closes.length - 1`, skipping `i < 1`).
JavaScript lets the lower bound go negative; natural subtraction here yields
the same visited set because of the `1 ≤ i` filter. -/
def rsiIdxs (n period : ℕ) : List ℕ :=
  (List.range n).filter (fun i => n - period ≤ i ∧ 1 ≤ i)

/-- The per-step gain and loss lists of `calculateRSI` (a step with change
`≤ 0` contributes `0` to gains and `|change|` to losses). -/
def rsiGainsLosses (closes : List ℚ) (period : ℕ) : List ℚ × List ℚ :=
  let idxs := rsiIdxs closes.length period
  (idxs.map (fun i =>
      let ch := closes.getD i 0 - closes.getD (i - 1) 0
      if 0 < ch then ch else 0),
   idxs.map (fun i =>
      let ch := closes.getD i 0 - closes.getD (i - 1) 0
      if 0 < ch then 0 else |ch|))

/-- `calculateRSI` of the canonical copy (simple trailing averages). -/
def calculateRSI (closes : List ℚ) (period : ℕ) : ℚ :=
  if closes.length < period + 1 then 50
  else
    let gl := rsiGainsLosses closes period
    if gl.1.length = 0 then 50
    else
      let avgGain := gl.1.sum / period
      let avgLoss := gl.2.sum / period
      if avgLoss = 0 then 100
      else if avgGain = 0 then 0
      else
        let rs := avgGain / avgLoss
        100 - 100 / (1 + rs)

/-- Result triple of `calculateMACD`. -/
structure MACDResult where
  macd : ℚ
  signal : ℚ
  histogram : ℚ
deriving DecidableEq, Repr

/-- `calculateMACD`: all-zero sentinel below 26 observations; the signal
line is the 9-period EMA of the reconstructed MACD series (from index 25
onward), falling back to the MACD value itself when that series is shorter
than 9.  The source's `isNaN` guards cannot fire over exact rationals; the
`≠ 0` guards are kept. -/
def calculateMACD (closes : List ℚ) : MACDResult :=
  if closes.length < 26 then { macd := 0, signal := 0, histogram := 0 }
  else
    let ema12 := calculateEMA closes 12
    let ema26 := calculateEMA closes 26
    if ema12 = 0 ∨ ema26 = 0 then { macd := 0, signal := 0, histogram := 0 }
    else
      let macd := ema12 - ema26
      let macdLine := ((List.range (closes.length - 25)).map (fun k => k + 25)).filterMap
        (fun i =>
          let e12 := calculateEMA (closes.take (i + 1)) 12
          let e26 := calculateEMA (closes.take (i + 1)) 26
          if e12 ≠ 0 ∧ e26 ≠ 0 then some (e12 - e26) else none)
      let signal := if 9 ≤ macdLine.length then calculateEMA macdLine 9 else macd
      { macd := macd, signal := signal, histogram := macd - signal }

/-- The true-range series (one entry per candle that has a predecessor). -/
def trueRanges (candles : List Candle) : List ℚ :=
  (candles.zip (candles.drop 1)).map (fun pc =>
    max (pc.2.high - pc.2.low) (max |pc.2.high - pc.1.close| |pc.2.low - pc.1.close|))

/-- `calculateATR` of the canonical copy: EMA of the true ranges. -/
def calculateATR (candles : List Candle) (period : ℕ) : ℚ :=
  if candles.length < period then 0
  else
    let trs := trueRanges candles
    if trs.length = 0 then 0 else calculateEMA trs period

/-- `calculateVolatility`: standard deviation of log-returns × 100, with the
transcendental `Math.log` / `Math.sqrt` supplied by the oracle. -/
def calculateVolatility (O : FloatOracle) (candles : List Candle) : ℚ :=
  if candles.length < 2 then 0
  else
    let returns := (candles.zip (candles.drop 1)).map
      (fun pc => O.log (pc.2.close / pc.1.close))
    let mean := returns.sum / (returns.length : ℚ)
    let variance := (returns.map (fun r => (r - mean) ^ 2)).sum / (returns.length : ℚ)
    O.sqrt variance * 100

/-- The strong MACD-histogram momentum threshold (`0.00005`). -/
def macdHistThresholdStrong : ℚ := 5 / 100000

/-- The weak MACD-histogram momentum threshold (`0.00001`).  It is declared
in the source (line 161) but never used by the momentum classification. -/
def macdHistThresholdWeak : ℚ := 1 / 100000

/-- The momentum classification of `getTechnicalIndicators` (lines 163-171):
only the strong threshold and the sign of the histogram are consulted. -/
def momentumOf (histogram priceChange : ℚ) : Momentum :=
  if macdHistThresholdStrong < histogram ∧ 0 < priceChange then Momentum.STRONG_UP
  else if 0 < histogram then Momentum.UP
  else if histogram < -macdHistThresholdStrong ∧ priceChange < 0 then Momentum.STRONG_DOWN
  else if histogram < 0 then Momentum.DOWN
  else Momentum.NEUTRAL

/-- The latest percentage price change
(`((currentPrice - candles[len-2]?.close) / candles[len-2]?.close) * 100 || 0`).
With fewer than two candles the optional chain yields `NaN` and `|| 0` maps it
to `0`.  A zero previous close would give `±Infinity` in JavaScript; it is
collapsed to `0` here, which is harmless because prices are positive by the
data-model invariant (spec §3). -/
def jsPriceChange (candles : List Candle) (currentPrice : ℚ) : ℚ :=
  if candles.length < 2 then 0
  else
    let prev := (candles.getD (candles.length - 2) defaultCandle).close
    if prev = 0 then 0 else (currentPrice - prev) / prev * 100

/-- The neutral snapshot returned by `getTechnicalIndicators` for an empty
history. -/
def neutralIndicators : TechnicalIndicators :=
  { sma20 := 0, sma50 := 0, ema12 := 0, ema26 := 0, rsi := 50,
    macd := 0, macdSignal := 0, macdHistogram := 0, atr := 0,
    volume := 0, avgVolume := 0,
    trend := Trend.UNDEFINED, momentum := Momentum.NEUTRAL }

/-- Body of `getTechnicalIndicators` after the dereference of the current
candle (`candles[candles.length - 1]`), which is passed in explicitly so the
checked variant below can model that dereference. -/
def giBody (candles : List Candle) (currentCandle : Candle) : TechnicalIndicators :=
  let currentPrice := currentCandle.close
  let closes := candles.map (fun c => c.close)
  let volumes := candles.map (fun c => c.volume)
  let sma20 := calculateSMA closes 20
  let sma50 := calculateSMA closes 50
  let ema12 := calculateEMA closes 12
  let ema26 := calculateEMA closes 26
  let rsi := calculateRSI closes 14
  let macdData := calculateMACD closes
  let atr := calculateATR candles 14
  let currentVolume := volumes.getLastD 0
  let avgVolume :=
    if 20 ≤ volumes.length then (volumes.drop (volumes.length - 20)).sum / 20 else 0
  -- the `isNaN` parts of the trend guard cannot fire over exact rationals
  let trend :=
    if sma50 ≠ 0 then
      if ema26 < ema12 ∧ sma20 < currentPrice ∧ sma50 < currentPrice then Trend.BULLISH
      else if ema12 < ema26 ∧ currentPrice < sma20 ∧ currentPrice < sma50 then Trend.BEARISH
      else Trend.SIDEWAYS
    else Trend.UNDEFINED
  let priceChange := jsPriceChange candles currentPrice
  { sma20 := sma20, sma50 := sma50, ema12 := ema12, ema26 := ema26, rsi := rsi,
    macd := macdData.macd, macdSignal := macdData.signal,
    macdHistogram := macdData.histogram, atr := atr,
    volume := currentVolume, avgVolume := avgVolume,
    trend := trend, momentum := momentumOf macdData.histogram priceChange }

/-- `getTechnicalIndicators` of the canonical copy. -/
def getTechnicalIndicators (candles : List Candle) : TechnicalIndicators :=
  if candles.length = 0 then neutralIndicators
  else giBody candles (candles.getLastD defaultCandle)

/-- `calculateHistoricalAccuracy`: static heuristic multiplier. -/
def calculateHistoricalAccuracy (candles : List Candle)
    (indicators : TechnicalIndicators) : ℚ :=
  let _ := candles  -- parameter present in the source, unused by its body
  let accuracy : ℚ := 3/4
  let accuracy := if 70 < indicators.rsi ∨ indicators.rsi < 30 then accuracy + 1/10 else accuracy
  let accuracy := if 1/10000 < |indicators.macdHistogram| then accuracy + 1/20 else accuracy
  min accuracy (19/20)

/-- The action/strength/probability/confidence block of
`calculateCurrentTickSignal` (lines 406-440): `confidence` starts at `0` and
is assigned only in the HOLD branch. -/
structure Decision where
  action : Action
  strength : Strength
  probability : ℚ
  confidence : ℚ
deriving DecidableEq, Repr

/-- Score-to-decision mapping of the canonical scorer (lines 406-440). -/
def decisionOf (score : ℤ) : Decision :=
  if 5 ≤ score then
    { action := Action.BUY,
      strength := if 12 ≤ score then Strength.VERY_STRONG
        else if 8 ≤ score then Strength.STRONG else Strength.MODERATE,
      probability := if 12 ≤ score then 90 else if 8 ≤ score then 80 else 65,
      confidence := 0 }
  else if score ≤ -4 then
    { action := Action.SELL,
      strength := if score ≤ -10 then Strength.VERY_STRONG
        else if score ≤ -7 then Strength.STRONG else Strength.MODERATE,
      probability := if score ≤ -10 then 90 else if score ≤ -7 then 80 else 65,
      confidence := 0 }
  else
    { action := Action.HOLD, strength := Strength.WEAK,
      probability := 50, confidence := 25 }

/-- The MACD threshold of the scorer (`0.00001`). -/
def macdThreshold : ℚ := 1 / 100000

/-- Rules 1-5 of `calculateCurrentTickSignal`: the additive score and the
reason strings, in source order.  `currentVolume` is the dereference
`candles[candles.length - 1].volume`, passed in explicitly so the checked
variant can model it. -/
def tickScoreReasons (candles : List Candle) (indicators : TechnicalIndicators)
    (currentPrice : ℚ) (trend : Trend) (currentVolume : ℚ) : ℤ × List String :=
  let s1 : ℤ × List String :=
    if indicators.rsi < 35 then (3, ["RSI oversold (strong buy signal)"])
    else if indicators.rsi < 45 then (1, ["RSI approaching oversold"])
    else (0, [])
  let s2 : ℤ × List String :=
    if 65 < indicators.rsi then (-3, ["RSI overbought (strong sell signal)"])
    else if 55 < indicators.rsi then (-1, ["RSI approaching overbought"])
    else (0, [])
  let s3 : ℤ × List String :=
    if macdThreshold < indicators.macdHistogram ∧ indicators.macdSignal < indicators.macd then
      (2, ["MACD bullish crossover"])
    else if 0 < indicators.macdHistogram then (1, ["MACD histogram positive"])
    else (0, [])
  let s4 : ℤ × List String :=
    if indicators.macdHistogram < -macdThreshold ∧ indicators.macd < indicators.macdSignal then
      (-2, ["MACD bearish crossover"])
    else if indicators.macdHistogram < 0 then (-1, ["MACD histogram negative"])
    else (0, [])
  let s5 : ℤ × List String :=
    if indicators.sma20 < currentPrice then (2, ["Price above SMA20 (bullish)"])
    else (-2, ["Price below SMA20 (bearish)"])
  let s6 : ℤ × List String :=
    if indicators.ema26 < indicators.ema12 then (2, ["EMA bullish cross"])
    else (-2, ["EMA bearish cross"])
  let s7 : ℤ × List String :=
    if trend = Trend.BULLISH then (2, ["Bullish trend"])
    else if trend = Trend.BEARISH then (-2, ["Bearish trend"])
    else (0, [])
  let base := s1.1 + s2.1 + s3.1 + s4.1 + s5.1 + s6.1 + s7.1
  let reasons := s1.2 ++ s2.2 ++ s3.2 ++ s4.2 ++ s5.2 ++ s6.2 ++ s7.2
  let avgVolume :=
    if 0 < indicators.avgVolume then indicators.avgVolume
    else if 20 ≤ candles.length then
      ((candles.map (fun c => c.volume)).drop (candles.length - 20)).sum / 20
    else 1
  if avgVolume * 2 < currentVolume then
    (base + base.sign, reasons ++ ["High volume confirmation"])
  else (base, reasons)

/-- The score computed by the canonical scorer on its actual arguments
(including the current-volume dereference). -/
def tickScore (candles : List Candle) (indicators : TechnicalIndicators)
    (currentPrice : ℚ) (trend : Trend) : ℤ :=
  (tickScoreReasons candles indicators currentPrice trend
    ((candles.getLastD defaultCandle).volume)).1

/-- The effective ATR of the scorer (line 448): the snapshot ATR when it is
a valid positive number, else the `0.00005` fallback. -/
def effectiveATR (indicators : TechnicalIndicators) : ℚ :=
  if 0 < indicators.atr then indicators.atr else 5 / 100000

/-- The unrounded stop-loss/take-profit pair of the scorer (lines 449-465):
stop at `ATR × 1.5` against the action direction, take-profit at
`ATR × 1.5 × 1.5` (risk-reward ratio) with it; both pinned to the current
price for HOLD.  These are the prices before the `toFixed(5)` rounding. -/
def rawStopTake (indicators : TechnicalIndicators) (currentPrice : ℚ)
    (action : Action) : ℚ × ℚ :=
  let atr := effectiveATR indicators
  let rr : ℚ := 3/2          -- riskRewardRatio = 1.5
  let atrMultiplier : ℚ := 3/2
  if action = Action.BUY then
    (currentPrice - atr * atrMultiplier, currentPrice + atr * atrMultiplier * rr)
  else if action = Action.SELL then
    (currentPrice + atr * atrMultiplier, currentPrice - atr * atrMultiplier * rr)
  else (currentPrice, currentPrice)

/-- Body of `calculateCurrentTickSignal` with the current-volume dereference
passed in explicitly. -/
def tickSignalBody (candles : List Candle) (indicators : TechnicalIndicators)
    (currentPrice : ℚ) (trend : Trend) (momentum : Momentum)
    (currentVolume : ℚ) : TradingSignal :=
  let _ := momentum  -- parameter present in the source, unused by its body
  let sr := tickScoreReasons candles indicators currentPrice trend currentVolume
  let d := decisionOf sr.1
  let reasons := sr.2 ++
    (if d.action = Action.HOLD then ["Market is consolidating or lacking clear direction."] else [])
  let historicalAccuracy := calculateHistoricalAccuracy candles indicators
  let probability := jsRound (d.probability * historicalAccuracy)
  let stopTake := rawStopTake indicators currentPrice d.action
  { action := d.action,
    confidence := jsRound d.confidence,
    reason :=
      (let j := String.intercalate ", " reasons
       if j = "" then "No clear signal based on current analysis." else j),
    probability := jsRound probability,
    strength := d.strength,
    entry_price := round5 currentPrice,
    stop_loss := round5 stopTake.1,
    take_profit := round5 stopTake.2 }

/-- `calculateCurrentTickSignal` of the canonical copy. -/
def calculateCurrentTickSignal (candles : List Candle)
    (indicators : TechnicalIndicators) (currentPrice : ℚ)
    (trend : Trend) (momentum : Momentum) : TradingSignal :=
  tickSignalBody candles indicators currentPrice trend momentum
    ((candles.getLastD defaultCandle).volume)

/-- `generateTradingSignals`: a one-element list around the tick signal. -/
def generateTradingSignals (candles : List Candle)
    (indicators : TechnicalIndicators) (currentPrice : ℚ)
    (trend : Trend) (momentum : Momentum) : List TradingSignal :=
  [calculateCurrentTickSignal candles indicators currentPrice trend momentum]

/-- The fixed signal of the insufficient-data branch of `analyzeMarket`
(entry/stop/take pinned to the latest close, or `0` for an empty history). -/
def insufficientSignal (candles : List Candle) : TradingSignal :=
  { action := Action.HOLD, confidence := 25,
    reason := "Insufficient data for analysis",
    probability := 50, strength := Strength.WEAK,
    entry_price := if candles = [] then 0 else (candles.getLastD defaultCandle).close,
    stop_loss := if candles = [] then 0 else (candles.getLastD defaultCandle).close,
    take_profit := if candles = [] then 0 else (candles.getLastD defaultCandle).close }

/-- `analyzeMarket` of the canonical copy.  The second early return (the
`isNaN` indicator check, lines 215-232) cannot fire over exact rationals and
is omitted; the dead local `priceChange` (line 237) is likewise omitted. -/
def analyzeMarket (O : FloatOracle) (candles : List Candle) : MarketAnalysis :=
  if candles.length < 50 ∨ candles = [] then
    { trend := Trend.SIDEWAYS, momentum := Momentum.NEUTRAL,
      volatility := VolLevel.MEDIUM, signals := [insufficientSignal candles] }
  else
    let currentCandle := candles.getLastD defaultCandle
    let indicators := getTechnicalIndicators candles
    let currentPrice := currentCandle.close
    let volatility := calculateVolatility O candles
    let volatilityLevel :=
      if 1/200 < volatility then VolLevel.HIGH
      else if volatility < 1/1000 then VolLevel.LOW
      else VolLevel.MEDIUM
    { trend := indicators.trend, momentum := indicators.momentum,
      volatility := volatilityLevel,
      signals := generateTradingSignals candles indicators currentPrice
        indicators.trend indicators.momentum }

/-! ### Checked variants

JavaScript can only raise an exception in this module by dereferencing a
property of `undefined`, i.e. through `candles[i].field` with `i` out of
range.  The checked variants below perform exactly the element accesses the
source dereferences, through `Option` (`none` = the access would have been
`undefined` and the dereference would have thrown); everything else is the
same body as the unchecked functions. -/

/-- JavaScript array subscript: `undefined` out of range. -/
def jsIndex (candles : List Candle) (i : ℕ) : Option Candle := candles.get? i

/-- `getTechnicalIndicators` with the `candles[candles.length - 1]`
dereference checked. -/
def getTechnicalIndicatorsChecked (candles : List Candle) :
    Option TechnicalIndicators :=
  if candles.length = 0 then some neutralIndicators
  else (jsIndex candles (candles.length - 1)).map (giBody candles)

/-- `calculateCurrentTickSignal` with the unguarded
`candles[candles.length - 1].volume` dereference checked. -/
def calculateCurrentTickSignalChecked (candles : List Candle)
    (indicators : TechnicalIndicators) (currentPrice : ℚ)
    (trend : Trend) (momentum : Momentum) : Option TradingSignal :=
  (jsIndex candles (candles.length - 1)).map
    (fun c => tickSignalBody candles indicators currentPrice trend momentum c.volume)

/-- `analyzeMarket` with every candle dereference checked. -/
def analyzeMarketChecked (O : FloatOracle) (candles : List Candle) :
    Option MarketAnalysis :=
  let currentCandle? := jsIndex candles (candles.length - 1)
  if candles.length < 50 ∨ currentCandle? = none then
    some { trend := Trend.SIDEWAYS, momentum := Momentum.NEUTRAL,
           volatility := VolLevel.MEDIUM,
           signals := [{ action := Action.HOLD, confidence := 25,
                         reason := "Insufficient data for analysis",
                         probability := 50, strength := Strength.WEAK,
                         entry_price := (currentCandle?.map (fun c => c.close)).getD 0,
                         stop_loss := (currentCandle?.map (fun c => c.close)).getD 0,
                         take_profit := (currentCandle?.map (fun c => c.close)).getD 0 }] }
  else
    currentCandle?.bind fun currentCandle =>
      (getTechnicalIndicatorsChecked candles).bind fun indicators =>
        (calculateCurrentTickSignalChecked candles indicators currentCandle.close
            indicators.trend indicators.momentum).map fun sig =>
          let volatility := calculateVolatility O candles
          { trend := indicators.trend, momentum := indicators.momentum,
            volatility :=
              if 1/200 < volatility then VolLevel.HIGH
              else if volatility < 1/1000 then VolLevel.LOW
              else VolLevel.MEDIUM,
            signals := [sig] }

end TechnicalAnalyzer

/-! ### The second copy of `TechnicalAnalyzer`

The source file contains a second, divergent copy of the class (lines
543-1019): the history floor is 26 instead of 50, the insufficient-data
signal carries confidence 50 with stop-loss/take-profit `0`, indicators can
be `null`, RSI uses Wilder smoothing, ATR is a trailing mean, and
`confidence = probability` on every signal.  Its nested `calculateEMA`
returns `NaN` on short input, so its numeric results are `Option ℚ`
(`none` = `NaN`); JavaScript comparisons with `NaN` are false. -/

namespace V2

/-- A JavaScript number that may be `NaN`. -/
abbrev JNum := Option ℚ

/-- `x < c` with `NaN` comparing false. -/
def jltB (x : JNum) (c : ℚ) : Bool :=
  match x with
  | some v => decide (v < c)
  | none => false

/-- `c < x` with `NaN` comparing false. -/
def jgtB (x : JNum) (c : ℚ) : Bool :=
  match x with
  | some v => decide (c < v)
  | none => false

/-- `y < x` on two possibly-`NaN` numbers. -/
def jgtJJ (x y : JNum) : Bool :=
  match x, y with
  | some a, some b => decide (b < a)
  | _, _ => false

/-- Subtraction propagating `NaN`. -/
def jsub (x y : JNum) : JNum :=
  match x, y with
  | some a, some b => some (a - b)
  | _, _ => none

/-- The indicator bundle of the second copy (no `sma50`; several fields may
be `NaN`). -/
structure Indicators2 where
  sma20 : ℚ
  ema12 : JNum
  ema26 : JNum
  macd : JNum
  macdSignal : JNum
  macdHistogram : JNum
  rsi : JNum
  atr : JNum
  volume : ℚ
  avgVolume : ℚ
  trend : Trend
  momentum : Momentum
deriving DecidableEq, Repr

/-- Top-level output of the second copy (no volatility bucket). -/
structure MarketAnalysis2 where
  trend : Trend
  momentum : Momentum
  signals : List TradingSignal
deriving DecidableEq, Repr

/-- The nested `calculateEMA` of the second copy: `NaN` below the seed
length, delta-form recurrence otherwise. -/
def emaV2 (data : List ℚ) (period : ℕ) : JNum :=
  if data.length < period then none
  else
    let k : ℚ := 2 / ((period : ℚ) + 1)
    let seed := (data.take period).sum / period
    some ((data.drop period).foldl (fun e x => (x - e) * k + e) seed)

/-- The nested Wilder-smoothed `calculateRSI` of the second copy. -/
def rsiV2 (data : List ℚ) (period : ℕ) : JNum :=
  if data.length < period + 1 then none
  else
    let diffs := (data.zip (data.drop 1)).map (fun p => p.2 - p.1)
    let gains := ((diffs.take period).map (fun d => if 0 < d then d else 0)).sum
    let losses := ((diffs.take period).map (fun d => if 0 < d then 0 else |d|)).sum
    let start := (gains / period, losses / period)
    let avg := (diffs.drop period).foldl
      (fun p d =>
        if 0 < d then ((p.1 * ((period : ℚ) - 1) + d) / period, p.2 * ((period : ℚ) - 1) / period)
        else (p.1 * ((period : ℚ) - 1) / period, (p.2 * ((period : ℚ) - 1) + |d|) / period))
      start
    if avg.2 = 0 then some 100
    else if avg.1 = 0 then some 0
    else some (100 - 100 / (1 + avg.1 / avg.2))

/-- The nested trailing-mean `calculateATR` of the second copy. -/
def atrV2 (highs lows closes : List ℚ) (period : ℕ) : JNum :=
  if highs.length < period ∨ lows.length < period ∨ closes.length < period then none
  else
    let trs := ((List.range closes.length).filter (fun i => 1 ≤ i)).map
      (fun i => max (highs.getD i 0 - lows.getD i 0)
        (max |highs.getD i 0 - closes.getD (i - 1) 0| |lows.getD i 0 - closes.getD (i - 1) 0|))
    if trs.length = 0 then some 0
    else if trs.length < period then some (trs.sum / trs.length)
    else some ((trs.drop (trs.length - period)).sum / period)

/-- `getTechnicalIndicators` of the second copy: `null` below 26 candles. -/
def getTechnicalIndicators (candles : List Candle) : Option Indicators2 :=
  if candles.length = 0 then none
  else if candles.length < 26 then none
  else
    let currentPrice := (candles.getLastD defaultCandle).close
    let closes := candles.map (fun c => c.close)
    let highPrices := candles.map (fun c => c.high)
    let lowPrices := candles.map (fun c => c.low)
    let volumes := candles.map (fun c => c.volume)
    let sma20 := (closes.drop (closes.length - 20)).sum / 20
    let ema12 := emaV2 closes 12
    let ema26 := emaV2 closes 26
    let macd := jsub ema12 ema26
    let macdValues := ((List.range (closes.length - 25)).map (fun k => k + 25)).filterMap
      (fun i =>
        match emaV2 (closes.take (i + 1)) 12, emaV2 (closes.take (i + 1)) 26 with
        | some a, some b => some (a - b)
        | _, _ => none)
    let macdSignal := emaV2 macdValues 9
    let macdHistogram := jsub macd macdSignal
    let rsi := rsiV2 closes 14
    let atr := atrV2 highPrices lowPrices closes 14
    let avgVolume := volumes.sum / volumes.length
    let trend :=
      match ema12, ema26 with
      | some e12, some e26 =>
        if e26 < e12 ∧ sma20 < currentPrice then Trend.BULLISH
        else if e12 < e26 ∧ currentPrice < sma20 then Trend.BEARISH
        else Trend.SIDEWAYS
      | _, _ => Trend.UNDEFINED
    let momentum :=
      match macdHistogram with
      | some h =>
        if 5/100000 < h then Momentum.STRONG_UP
        else if 0 < h then Momentum.UP
        else if h < -(5/100000) then Momentum.STRONG_DOWN
        else if h < 0 then Momentum.DOWN
        else Momentum.NEUTRAL
      | none => Momentum.NEUTRAL
    some { sma20 := sma20, ema12 := ema12, ema26 := ema26, macd := macd,
           macdSignal := macdSignal, macdHistogram := macdHistogram, rsi := rsi,
           atr := atr, volume := volumes.getLastD 0, avgVolume := avgVolume,
           trend := trend, momentum := momentum }

/-- `calculateCurrentTickSignal` of the second copy. -/
def calculateCurrentTickSignal (candle : Candle) (indicators : Indicators2)
    (trend : Trend) (momentum : Momentum) : TradingSignal :=
  let _ := momentum  -- parameter present in the source, unused by its body
  let currentPrice := candle.close
  let r1 : ℤ := if jltB indicators.rsi 35 then 3 else if jltB indicators.rsi 45 then 1 else 0
  let r2 : ℤ := if jgtB indicators.rsi 65 then -3 else if jgtB indicators.rsi 55 then -1 else 0
  let r3 : ℤ :=
    if jgtB indicators.macdHistogram (1/100000) && jgtJJ indicators.macd indicators.macdSignal
    then 2 else if jgtB indicators.macdHistogram 0 then 1 else 0
  let r4 : ℤ :=
    if jltB indicators.macdHistogram (-(1/100000)) && jgtJJ indicators.macdSignal indicators.macd
    then -2 else if jltB indicators.macdHistogram 0 then -1 else 0
  let r5 : ℤ := if indicators.sma20 < currentPrice then 2 else -2
  let r6 : ℤ := if jgtJJ indicators.ema12 indicators.ema26 then 2 else -2
  let r7 : ℤ :=
    if trend = Trend.BULLISH then 2 else if trend = Trend.BEARISH then -2 else 0
  let base := r1 + r2 + r3 + r4 + r5 + r6 + r7
  let avgVolume := if indicators.avgVolume = 0 then 1 else indicators.avgVolume
  let score :=
    if avgVolume * 2 < candle.volume ∧ 0 < base then base + 1
    else if avgVolume * 2 < candle.volume ∧ base < 0 then base - 1
    else base
  let d : Action × Strength × ℚ × String :=
    if 4 ≤ score then
      if 10 ≤ score then
        (Action.BUY, Strength.VERY_STRONG, 90,
         "Very Strong Buy Signal based on multiple confirming indicators and strong momentum.")
      else if 7 ≤ score then
        (Action.BUY, Strength.STRONG, 80, "Strong Buy Signal with confirming technical factors.")
      else (Action.BUY, Strength.MODERATE, 65, "Moderate Buy Signal with some confirming indicators.")
    else if score ≤ -4 then
      if score ≤ -10 then
        (Action.SELL, Strength.VERY_STRONG, 90,
         "Very Strong Sell Signal based on multiple confirming indicators and strong momentum.")
      else if score ≤ -7 then
        (Action.SELL, Strength.STRONG, 80, "Strong Sell Signal with confirming technical factors.")
      else (Action.SELL, Strength.MODERATE, 65, "Moderate Sell Signal with some confirming indicators.")
    else (Action.HOLD, Strength.WEAK, 50, "Market is consolidating or lacking clear direction.")
  let rr : ℚ := 3/2
  let stopTake : ℚ × ℚ :=
    match indicators.atr with
    | some v =>
      if 0 < v then
        let range := v * (3/2)
        if d.1 = Action.BUY then (currentPrice - range, currentPrice + range * rr)
        else if d.1 = Action.SELL then (currentPrice + range, currentPrice - range * rr)
        else (0, 0)
      else
        let pr : ℚ := 2/10000
        if d.1 = Action.BUY then (currentPrice * (1 - pr), currentPrice * (1 + pr * rr))
        else if d.1 = Action.SELL then (currentPrice * (1 + pr), currentPrice * (1 - pr * rr))
        else (0, 0)
    | none =>
      let pr : ℚ := 2/10000
      if d.1 = Action.BUY then (currentPrice * (1 - pr), currentPrice * (1 + pr * rr))
      else if d.1 = Action.SELL then (currentPrice * (1 + pr), currentPrice * (1 - pr * rr))
      else (0, 0)
  { action := d.1, confidence := d.2.2.1, reason := d.2.2.2,
    probability := d.2.2.1, strength := d.2.1,
    entry_price := round5 currentPrice,
    stop_loss := round5 stopTake.1,
    take_profit := round5 stopTake.2 }

/-- `analyzeMarket` of the second copy: below 26 candles the signal is HOLD
with confidence 50 and stop-loss/take-profit left at `0`. -/
def analyzeMarket (candles : List Candle) : MarketAnalysis2 :=
  let currentCandle? := candles.get? (candles.length - 1)
  let indicators? := getTechnicalIndicators candles
  let trend := match indicators? with | some i => i.trend | none => Trend.UNDEFINED
  let momentum := match indicators? with | some i => i.momentum | none => Momentum.NEUTRAL
  match indicators? with
  | none =>
    { trend := trend, momentum := momentum,
      signals := [{ action := Action.HOLD, confidence := 50,
                    reason := "Insufficient data for analysis.",
                    probability := 50, strength := Strength.WEAK,
                    entry_price := (currentCandle?.map (fun c => c.close)).getD 0,
                    stop_loss := 0, take_profit := 0 }] }
  | some indicators =>
    if candles.length < 26 then
      { trend := trend, momentum := momentum,
        signals := [{ action := Action.HOLD, confidence := 50,
                      reason := "Insufficient data for analysis.",
                      probability := 50, strength := Strength.WEAK,
                      entry_price := (currentCandle?.map (fun c => c.close)).getD 0,
                      stop_loss := 0, take_profit := 0 }] }
    else
      { trend := trend, momentum := momentum,
        signals := [calculateCurrentTickSignal (candles.getLastD defaultCandle)
          indicators trend momentum] }

end V2

/-! ### Concrete inputs used by counterexamples and witnesses -/

/-- An oracle mapping `Math.log` and `Math.sqrt` to `0`; it only influences
the volatility bucket, never the trading signal. -/
def oracle0 : FloatOracle := { log := fun _ => 0, sqrt := fun _ => 0 }

/-- A flat candle at price `c` with volume 1. -/
def flatCandle (c : ℚ) : Candle :=
  { timestamp := 0, open_ := c, high := c, low := c, close := c, volume := 1 }

/-- A single flat candle at price 1. -/
def candle1 : Candle := flatCandle 1

/-- 50 flat candles at 1 with a tiny up/down wiggle at the end: RSI is 50,
the MACD histogram is small positive, price sits below SMA20, EMA12 above
EMA26 — the scorer lands at score 2, inside the dead zone. -/
def csDeadZone : List Candle :=
  ((List.replicate 48 (1 : ℚ)) ++ [1 + 1/1000, 1]).map flatCandle

/-- 34 flat candles at 1 with a `10⁻⁴` bump on the last close: the MACD
histogram is `14/1974375 ≈ 7.09·10⁻⁶`, strictly between `0` and the weak
momentum threshold `10⁻⁵`. -/
def csTinyHist : List Candle :=
  ((List.replicate 33 (1 : ℚ)) ++ [1 + 1/10000]).map flatCandle

/-- A snapshot with a valid but tiny positive ATR (`10⁻⁷`) that scores as a
BUY at price 1 (price above SMA20, EMA12 above EMA26, bullish trend). -/
def indTinyATR : TechnicalIndicators :=
  { sma20 := 9/10, sma50 := 1, ema12 := 2, ema26 := 1, rsi := 50,
    macd := 0, macdSignal := 0, macdHistogram := 0, atr := 1/10000000,
    volume := 1, avgVolume := 10,
    trend := Trend.BULLISH, momentum := Momentum.NEUTRAL }

/-- A bullish-leaning snapshot at price 1: RSI 30 (+3), price above SMA20
(+2), EMA12 above EMA26 (+2) — score `+7`. -/
def indMirrorBuy : TechnicalIndicators :=
  { sma20 := 9/10, sma50 := 1, ema12 := 11/10, ema26 := 1, rsi := 30,
    macd := 0, macdSignal := 0, macdHistogram := 0, atr := 1,
    volume := 1, avgVolume := 10,
    trend := Trend.SIDEWAYS, momentum := Momentum.NEUTRAL }

/-- The mirror image of `indMirrorBuy`: RSI 70 (−3), price below SMA20
(−2), EMA12 below EMA26 (−2) — score `−7`. -/
def indMirrorSell : TechnicalIndicators :=
  { sma20 := 11/10, sma50 := 1, ema12 := 1, ema26 := 11/10, rsi := 70,
    macd := 0, macdSignal := 0, macdHistogram := 0, atr := 1,
    volume := 1, avgVolume := 10,
    trend := Trend.SIDEWAYS, momentum := Momentum.NEUTRAL }

/-- Numeric order of the strength tiers. -/
def strengthRank : Strength → ℕ
  | Strength.WEAK => 0
  | Strength.MODERATE => 1
  | Strength.STRONG => 2
  | Strength.VERY_STRONG => 3

/-! ### Helper lemmas -/

theorem jsRound_intCast (n : ℤ) : jsRound (n : ℚ) = n := by
  unfold jsRound
  rw [Int.floor_int_add]
  norm_num

theorem jsRound_jsRound (q : ℚ) : jsRound (jsRound q) = jsRound q := jsRound_intCast _

theorem round5_mono {a b : ℚ} (h : a ≤ b) : round5 a ≤ round5 b := by
  unfold round5
  have h1 : a * 100000 + 1/2 ≤ b * 100000 + 1/2 := by linarith
  have h2 : (⌊a * 100000 + 1/2⌋ : ℤ) ≤ ⌊b * 100000 + 1/2⌋ := Int.floor_le_floor h1
  have h3 : ((⌊a * 100000 + 1/2⌋ : ℤ) : ℚ) ≤ ((⌊b * 100000 + 1/2⌋ : ℤ) : ℚ) :=
    Int.cast_le.mpr h2
  exact div_le_div_of_nonneg_right h3 (by norm_num)

theorem effectiveATR_pos (indicators : TechnicalIndicators) :
    0 < TechnicalAnalyzer.effectiveATR indicators := by
  unfold TechnicalAnalyzer.effectiveATR
  split_ifs with h0
  · exact h0
  · norm_num

theorem rawStopTake_buy (indicators : TechnicalIndicators) (p : ℚ) :
    TechnicalAnalyzer.rawStopTake indicators p Action.BUY =
      (p - TechnicalAnalyzer.effectiveATR indicators * (3/2),
       p + TechnicalAnalyzer.effectiveATR indicators * (3/2) * (3/2)) := by
  unfold TechnicalAnalyzer.rawStopTake
  rfl

theorem rawStopTake_sell (indicators : TechnicalIndicators) (p : ℚ) :
    TechnicalAnalyzer.rawStopTake indicators p Action.SELL =
      (p + TechnicalAnalyzer.effectiveATR indicators * (3/2),
       p - TechnicalAnalyzer.effectiveATR indicators * (3/2) * (3/2)) := by
  unfold TechnicalAnalyzer.rawStopTake
  rfl

theorem rawStopTake_hold (indicators : TechnicalIndicators) (p : ℚ) :
    TechnicalAnalyzer.rawStopTake indicators p Action.HOLD = (p, p) := by
  unfold TechnicalAnalyzer.rawStopTake
  rfl

theorem decisionOf_dead_zone (s : ℤ) (h1 : -4 < s) (h2 : s < 5) :
    TechnicalAnalyzer.decisionOf s =
      { action := Action.HOLD, strength := Strength.WEAK,
        probability := 50, confidence := 25 } := by
  unfold TechnicalAnalyzer.decisionOf
  rw [if_neg (by omega), if_neg (by omega)]

theorem decisionOf_confidence_eq_zero (s : ℤ)
    (h : (TechnicalAnalyzer.decisionOf s).action ≠ Action.HOLD) :
    (TechnicalAnalyzer.decisionOf s).confidence = 0 := by
  unfold TechnicalAnalyzer.decisionOf at *
  split_ifs at h ⊢ <;> simp_all

theorem tickSignal_dead_zone (candles : List Candle)
    (indicators : TechnicalIndicators) (currentPrice : ℚ)
    (trend : Trend) (momentum : Momentum)
    (h1 : -4 < TechnicalAnalyzer.tickScore candles indicators currentPrice trend)
    (h2 : TechnicalAnalyzer.tickScore candles indicators currentPrice trend < 5) :
    (TechnicalAnalyzer.calculateCurrentTickSignal candles indicators currentPrice
      trend momentum).action = Action.HOLD ∧
    (TechnicalAnalyzer.calculateCurrentTickSignal candles indicators currentPrice
      trend momentum).strength = Strength.WEAK ∧
    (TechnicalAnalyzer.calculateCurrentTickSignal candles indicators currentPrice
      trend momentum).confidence = 25 ∧
    (TechnicalAnalyzer.calculateCurrentTickSignal candles indicators currentPrice
      trend momentum).probability =
      jsRound (50 * TechnicalAnalyzer.calculateHistoricalAccuracy candles indicators) := by
  unfold TechnicalAnalyzer.tickScore at h1 h2
  have hd := decisionOf_dead_zone _ h1 h2
  simp only [TechnicalAnalyzer.calculateCurrentTickSignal,
    TechnicalAnalyzer.tickSignalBody, hd]
  refine ⟨trivial, trivial, ?_, ?_⟩
  · simpa using jsRound_intCast 25
  · simpa using jsRound_jsRound
      (50 * TechnicalAnalyzer.calculateHistoricalAccuracy candles indicators)

theorem jsRound_accuracy_bounds (candles : List Candle)
    (indicators : TechnicalIndicators) :
    38 ≤ jsRound (50 * TechnicalAnalyzer.calculateHistoricalAccuracy candles indicators) ∧
    jsRound (50 * TechnicalAnalyzer.calculateHistoricalAccuracy candles indicators) ≤ 45 := by
  unfold TechnicalAnalyzer.calculateHistoricalAccuracy
  split_ifs <;> constructor <;> with_unfolding_all decide

theorem rsi_gains_sum_nonneg (closes : List ℚ) (period : ℕ) :
    0 ≤ (TechnicalAnalyzer.rsiGainsLosses closes period).1.sum := by
  apply List.sum_nonneg
  intro x hx
  simp only [TechnicalAnalyzer.rsiGainsLosses, List.mem_map] at hx
  obtain ⟨i, _, rfl⟩ := hx
  split_ifs with hch
  · linarith
  · exact le_refl 0

theorem rsi_losses_sum_nonneg (closes : List ℚ) (period : ℕ) :
    0 ≤ (TechnicalAnalyzer.rsiGainsLosses closes period).2.sum := by
  apply List.sum_nonneg
  intro x hx
  simp only [TechnicalAnalyzer.rsiGainsLosses, List.mem_map] at hx
  obtain ⟨i, _, rfl⟩ := hx
  split_ifs with hch
  · exact le_refl 0
  · exact abs_nonneg _

theorem rsi_formula_bounds (G L : ℚ) (hG : 0 ≤ G) (hL : 0 < L) :
    0 ≤ 100 - 100 / (1 + G / L) ∧ 100 - 100 / (1 + G / L) ≤ 100 := by
  have hrs : 0 ≤ G / L := div_nonneg hG hL.le
  have h1rs : (0:ℚ) < 1 + G / L := by linarith
  have hle : 100 / (1 + G / L) ≤ 100 := div_le_self (by norm_num) (by linarith)
  have hpos : 0 < 100 / (1 + G / L) := div_pos (by norm_num) h1rs
  exact ⟨by linarith, by linarith⟩

theorem rsiIdxs_start_mem (n period : ℕ) (hlen : period + 1 ≤ n) (hper : 1 ≤ period) :
    n - period ∈ TechnicalAnalyzer.rsiIdxs n period := by
  unfold TechnicalAnalyzer.rsiIdxs
  simp only [List.mem_filter, List.mem_range, decide_eq_true_eq]
  omega

theorem rsi_gains_length_ne_zero (closes : List ℚ) (period : ℕ)
    (hlen : period + 1 ≤ closes.length) (hper : 1 ≤ period) :
    (TechnicalAnalyzer.rsiGainsLosses closes period).1.length ≠ 0 := by
  have hmem := rsiIdxs_start_mem closes.length period hlen hper
  simp only [TechnicalAnalyzer.rsiGainsLosses, List.length_map]
  intro hcontra
  rw [List.length_eq_zero] at hcontra
  rw [hcontra] at hmem
  exact absurd hmem (List.not_mem_nil _)

theorem momentumOf_cases (h pc : ℚ) :
    (TechnicalAnalyzer.momentumOf h pc = Momentum.NEUTRAL ↔ h = 0) ∧
    (TechnicalAnalyzer.momentumOf h pc = Momentum.UP → 0 < h) ∧
    (TechnicalAnalyzer.momentumOf h pc = Momentum.DOWN → h < 0) ∧
    (TechnicalAnalyzer.momentumOf h pc = Momentum.STRONG_UP →
      TechnicalAnalyzer.macdHistThresholdStrong < h ∧ 0 < pc) ∧
    (TechnicalAnalyzer.momentumOf h pc = Momentum.STRONG_DOWN →
      h < -TechnicalAnalyzer.macdHistThresholdStrong ∧ pc < 0) := by
  unfold TechnicalAnalyzer.momentumOf
  split_ifs with c1 c2 c3 c4
  · have hpos : 0 < h :=
      lt_trans (by norm_num [TechnicalAnalyzer.macdHistThresholdStrong]) c1.1
    exact ⟨⟨fun hx => absurd hx (by decide), fun hx => absurd hpos (by rw [hx]; norm_num)⟩,
      fun hx => absurd hx (by decide), fun hx => absurd hx (by decide),
      fun hx => c1, fun hx => absurd hx (by decide)⟩
  · exact ⟨⟨fun hx => absurd hx (by decide), fun hx => absurd c2 (by rw [hx]; norm_num)⟩,
      fun hx => c2, fun hx => absurd hx (by decide),
      fun hx => absurd hx (by decide), fun hx => absurd hx (by decide)⟩
  · have hneg : h < 0 :=
      lt_trans c3.1 (by norm_num [TechnicalAnalyzer.macdHistThresholdStrong])
    exact ⟨⟨fun hx => absurd hx (by decide), fun hx => absurd hneg (by rw [hx]; norm_num)⟩,
      fun hx => absurd hx (by decide), fun hx => absurd hx (by decide),
      fun hx => absurd hx (by decide), fun hx => c3⟩
  · exact ⟨⟨fun hx => absurd hx (by decide), fun hx => absurd c4 (by rw [hx]; norm_num)⟩,
      fun hx => absurd hx (by decide), fun hx => c4,
      fun hx => absurd hx (by decide), fun hx => absurd hx (by decide)⟩
  · have hz : h = 0 := le_antisymm (not_lt.mp c2) (not_lt.mp c4)
    exact ⟨⟨fun hx => hz, fun hx => rfl⟩,
      fun hx => absurd hx (by decide), fun hx => absurd hx (by decide),
      fun hx => absurd hx (by decide), fun hx => absurd hx (by decide)⟩

theorem jsIndex_last (candles : List Candle) (h : candles ≠ []) :
    TechnicalAnalyzer.jsIndex candles (candles.length - 1) =
      some (candles.getLastD defaultCandle) := by
  unfold TechnicalAnalyzer.jsIndex
  rw [List.get?_eq_getElem?, ← List.getLast?_eq_getElem?]
  rcases hx : candles.getLast? with _ | x
  · rw [List.getLast?_eq_none_iff] at hx
    exact absurd hx h
  · rw [List.getLastD_eq_getLast?, hx]
    rfl

theorem giChecked_eq (candles : List Candle) :
    TechnicalAnalyzer.getTechnicalIndicatorsChecked candles =
      some (TechnicalAnalyzer.getTechnicalIndicators candles) := by
  unfold TechnicalAnalyzer.getTechnicalIndicatorsChecked
    TechnicalAnalyzer.getTechnicalIndicators
  by_cases hlen : candles.length = 0
  · rw [if_pos hlen, if_pos hlen]
  · have hne : candles ≠ [] := by
      intro hc
      rw [hc] at hlen
      exact hlen rfl
    rw [if_neg hlen, if_neg hlen, jsIndex_last candles hne]
    rfl

theorem tickChecked_eq (candles : List Candle) (indicators : TechnicalIndicators)
    (currentPrice : ℚ) (trend : Trend) (momentum : Momentum) (h : candles ≠ []) :
    TechnicalAnalyzer.calculateCurrentTickSignalChecked candles indicators currentPrice
        trend momentum =
      some (TechnicalAnalyzer.calculateCurrentTickSignal candles indicators currentPrice
        trend momentum) := by
  unfold TechnicalAnalyzer.calculateCurrentTickSignalChecked
    TechnicalAnalyzer.calculateCurrentTickSignal
  rw [jsIndex_last candles h]
  rfl

/-! ### Claims -/

set_option maxRecDepth 100000

/-- Counterexample for C6 as stated: on 15 constant closes the trailing
average gain is 0, yet `calculateRSI` returns 100, not 0 — the
`avgLoss = 0 ⇒ 100` case is checked first and also fires. -/
theorem claim6_counterexample :
    ((TechnicalAnalyzer.rsiGainsLosses (List.replicate 15 (1:ℚ)) 14).1.sum = 0) ∧
    TechnicalAnalyzer.calculateRSI (List.replicate 15 (1:ℚ)) 14 = 100 ∧
    ((100:ℚ) ≠ 0) := by
  with_unfolding_all decide

/-- Claim C6 (corrected): `calculateRSI` always lies in `[0, 100]`, returns
50 below `period + 1` closes, returns 100 when the trailing losses sum to 0
(sufficient history), and returns 0 when the trailing gains sum to 0 *and*
the losses do not — the zero-loss case takes precedence. -/
theorem claim6_amended (closes : List ℚ) (period : ℕ) :
    (0 ≤ TechnicalAnalyzer.calculateRSI closes period ∧
      TechnicalAnalyzer.calculateRSI closes period ≤ 100) ∧
    (closes.length < period + 1 → TechnicalAnalyzer.calculateRSI closes period = 50) ∧
    (period + 1 ≤ closes.length → 1 ≤ period →
      (TechnicalAnalyzer.rsiGainsLosses closes period).2.sum = 0 →
      TechnicalAnalyzer.calculateRSI closes period = 100) ∧
    (period + 1 ≤ closes.length → 1 ≤ period →
      (TechnicalAnalyzer.rsiGainsLosses closes period).2.sum ≠ 0 →
      (TechnicalAnalyzer.rsiGainsLosses closes period).1.sum = 0 →
      TechnicalAnalyzer.calculateRSI closes period = 0) := by
  refine ⟨?_, ?_, ?_, ?_⟩
  · simp only [TechnicalAnalyzer.calculateRSI]
    split_ifs with ha hb hc hdd
    · norm_num
    · norm_num
    · norm_num
    · norm_num
    · have hG : 0 ≤ (TechnicalAnalyzer.rsiGainsLosses closes period).1.sum / (period:ℚ) :=
        div_nonneg (rsi_gains_sum_nonneg closes period) (Nat.cast_nonneg period)
      have hL0 : 0 ≤ (TechnicalAnalyzer.rsiGainsLosses closes period).2.sum / (period:ℚ) :=
        div_nonneg (rsi_losses_sum_nonneg closes period) (Nat.cast_nonneg period)
      have hL : 0 < (TechnicalAnalyzer.rsiGainsLosses closes period).2.sum / (period:ℚ) :=
        lt_of_le_of_ne hL0 (Ne.symm hc)
      exact rsi_formula_bounds _ _ hG hL
  · intro h
    simp only [TechnicalAnalyzer.calculateRSI]
    rw [if_pos h]
  · intro hlen hper hloss
    simp only [TechnicalAnalyzer.calculateRSI]
    rw [if_neg (by omega), if_neg (rsi_gains_length_ne_zero closes period hlen hper),
      if_pos (by rw [hloss]; exact zero_div _)]
  · intro hlen hper hloss hgain
    have hLne : (TechnicalAnalyzer.rsiGainsLosses closes period).2.sum / (period:ℚ) ≠ 0 :=
      div_ne_zero hloss (Nat.cast_ne_zero.mpr (by omega))
    simp only [TechnicalAnalyzer.calculateRSI]
    rw [if_neg (by omega), if_neg (rsi_gains_length_ne_zero closes period hlen hper),
      if_neg hLne, if_pos (by rw [hgain]; exact zero_div _)]

/-- Witness for C6 at the two-element series `[1, 2]` with period 14. -/
theorem claim6_witness :
    (0 ≤ TechnicalAnalyzer.calculateRSI [(1:ℚ), 2] 14 ∧
      TechnicalAnalyzer.calculateRSI [(1:ℚ), 2] 14 ≤ 100) ∧
    TechnicalAnalyzer.calculateRSI [(1:ℚ), 2] 14 = 50 :=
  ⟨(claim6_amended [(1:ℚ), 2] 14).1,
   (claim6_amended [(1:ℚ), 2] 14).2.1 (by decide)⟩

/-- Counterexample for C7 as stated: on the 34-candle history `csTinyHist`
the MACD histogram is strictly between 0 and the weak threshold `10⁻⁵`, so
the claim demands NEUTRAL, yet the momentum classification is UP — the
declared weak threshold is never consulted. -/
theorem claim7_counterexample :
    (0 < (TechnicalAnalyzer.getTechnicalIndicators csTinyHist).macdHistogram) ∧
    ((TechnicalAnalyzer.getTechnicalIndicators csTinyHist).macdHistogram <
      TechnicalAnalyzer.macdHistThresholdWeak) ∧
    (TechnicalAnalyzer.getTechnicalIndicators csTinyHist).momentum = Momentum.UP ∧
    (Momentum.UP ≠ Momentum.NEUTRAL) := by
  with_unfolding_all decide

/-- Claim C7 (corrected): the weak threshold is declared but unused — the
momentum is NEUTRAL exactly when the histogram is 0; UP/DOWN fire for any
strictly positive/negative histogram, and STRONG_UP/STRONG_DOWN require the
histogram beyond the strong threshold (together with a matching latest
price change). -/
theorem claim7_amended (candles : List Candle) :
    ((TechnicalAnalyzer.getTechnicalIndicators candles).momentum = Momentum.NEUTRAL ↔
      (TechnicalAnalyzer.getTechnicalIndicators candles).macdHistogram = 0) ∧
    ((TechnicalAnalyzer.getTechnicalIndicators candles).momentum = Momentum.UP →
      0 < (TechnicalAnalyzer.getTechnicalIndicators candles).macdHistogram) ∧
    ((TechnicalAnalyzer.getTechnicalIndicators candles).momentum = Momentum.DOWN →
      (TechnicalAnalyzer.getTechnicalIndicators candles).macdHistogram < 0) ∧
    ((TechnicalAnalyzer.getTechnicalIndicators candles).momentum = Momentum.STRONG_UP →
      TechnicalAnalyzer.macdHistThresholdStrong <
        (TechnicalAnalyzer.getTechnicalIndicators candles).macdHistogram) ∧
    ((TechnicalAnalyzer.getTechnicalIndicators candles).momentum = Momentum.STRONG_DOWN →
      (TechnicalAnalyzer.getTechnicalIndicators candles).macdHistogram <
        -TechnicalAnalyzer.macdHistThresholdStrong) := by
  by_cases hlen : candles.length = 0
  · simp [TechnicalAnalyzer.getTechnicalIndicators, hlen,
      TechnicalAnalyzer.neutralIndicators]
  · simp only [TechnicalAnalyzer.getTechnicalIndicators, hlen, if_false,
      TechnicalAnalyzer.giBody]
    have hm := momentumOf_cases
      (TechnicalAnalyzer.calculateMACD (candles.map (fun c => c.close))).histogram
      (TechnicalAnalyzer.jsPriceChange candles ((candles.getLastD defaultCandle).close))
    exact ⟨hm.1, hm.2.1, hm.2.2.1,
      fun hx => (hm.2.2.2.1 hx).1, fun hx => (hm.2.2.2.2 hx).1⟩

/-- Witness for C7 at `csTinyHist`, whose momentum is UP. -/
theorem claim7_witness :
    0 < (TechnicalAnalyzer.getTechnicalIndicators csTinyHist).macdHistogram :=
  (claim7_amended csTinyHist).2.1 (by with_unfolding_all decide)

/-- Claim C8 (confirmed): for every non-empty history, the checked analyzer
— in which every JavaScript property access on a possibly-`undefined`
candle is modelled in `Option` — succeeds and agrees with the total
embedding: all degenerate cases degrade to the defined sentinel/HOLD
outputs and no access that would throw is ever reached. -/
theorem claim8_checked_total (O : FloatOracle) (candles : List Candle)
    (h : candles ≠ []) :
    TechnicalAnalyzer.analyzeMarketChecked O candles =
      some (TechnicalAnalyzer.analyzeMarket O candles) := by
  unfold TechnicalAnalyzer.analyzeMarketChecked TechnicalAnalyzer.analyzeMarket
  simp only [jsIndex_last candles h, giChecked_eq,
    tickChecked_eq candles (TechnicalAnalyzer.getTechnicalIndicators candles)
      ((candles.getLastD defaultCandle).close)
      (TechnicalAnalyzer.getTechnicalIndicators candles).trend
      (TechnicalAnalyzer.getTechnicalIndicators candles).momentum h,
    Option.some_bind, Option.map_some, Option.getD_some,
    TechnicalAnalyzer.insufficientSignal, TechnicalAnalyzer.generateTradingSignals, h]
  simp only [reduceCtorEq, or_false, Option.map_some, Option.getD_some, if_false, ite_false]
  split_ifs <;> rfl

/-- Witness for C8 at the single-candle history `[candle1]`. -/
theorem claim8_witness :
    TechnicalAnalyzer.analyzeMarketChecked oracle0 [candle1] =
      some (TechnicalAnalyzer.analyzeMarket oracle0 [candle1]) :=
  claim8_checked_total oracle0 [candle1] (by simp)

/-- Claim C9 (confirmed): for every list of closes with fewer than 26
elements, `calculateMACD` returns exactly `{macd := 0, signal := 0,
histogram := 0}`. -/
theorem claim9_macd_sentinel (closes : List ℚ) (h : closes.length < 26) :
    TechnicalAnalyzer.calculateMACD closes = { macd := 0, signal := 0, histogram := 0 } := by
  unfold TechnicalAnalyzer.calculateMACD
  rw [if_pos h]

/-- Witness for C9 at the one-element series `[1]`. -/
theorem claim9_witness :
    ([(1:ℚ)].length < 26) ∧
      TechnicalAnalyzer.calculateMACD [(1:ℚ)] = { macd := 0, signal := 0, histogram := 0 } :=
  ⟨by decide, claim9_macd_sentinel [(1:ℚ)] (by decide)⟩

/-- Claim C10 (confirmed): whenever the series length equals the period,
`calculateEMA` returns the same value as `calculateSMA` (the recurrence loop
performs zero iterations, and the zero-seed early return also returns the
seed). -/
theorem claim10_ema_seed (data : List ℚ) (period : ℕ) (h : data.length = period) :
    TechnicalAnalyzer.calculateEMA data period = TechnicalAnalyzer.calculateSMA data period := by
  unfold TechnicalAnalyzer.calculateEMA
  rw [if_neg (by omega)]
  have ht : data.take period = data := by rw [← h]; simp
  have hd : data.drop period = [] := by rw [← h]; simp
  simp only [ht, hd, List.foldl_nil]
  split_ifs with h0
  · exact h0.symm
  · rfl

/-- Witness for C10 at the series `[1, 2]` with period 2 (both sides `3/2`). -/
theorem claim10_witness :
    (([(1:ℚ), 2]).length = 2) ∧
      TechnicalAnalyzer.calculateEMA [(1:ℚ), 2] 2 = TechnicalAnalyzer.calculateSMA [(1:ℚ), 2] 2 :=
  ⟨by decide, claim10_ema_seed [(1:ℚ), 2] 2 (by decide)⟩

/-- Claim C5 (confirmed): in the canonical scorer, every signal whose action
is BUY or SELL carries confidence exactly 0 — `confidence` is initialised to
0 and assigned only in the HOLD branch. -/
theorem claim5_actionable_confidence_zero (candles : List Candle)
    (indicators : TechnicalIndicators) (currentPrice : ℚ)
    (trend : Trend) (momentum : Momentum)
    (h : (TechnicalAnalyzer.calculateCurrentTickSignal candles indicators currentPrice
      trend momentum).action ≠ Action.HOLD) :
    (TechnicalAnalyzer.calculateCurrentTickSignal candles indicators currentPrice
      trend momentum).confidence = 0 := by
  simp only [TechnicalAnalyzer.calculateCurrentTickSignal,
    TechnicalAnalyzer.tickSignalBody] at h ⊢
  rw [decisionOf_confidence_eq_zero _ h]
  simpa using jsRound_intCast 0

/-- Counterexample for C1 as stated: the repository's second copy of
`analyzeMarket` on the single-candle history `[candle1]` (fewer than 50
candles) returns a HOLD signal with confidence 50 — not 25 — and stop-loss
and take-profit 0 — not the latest close 1. -/
theorem claim1_counterexample :
    (([candle1] : List Candle).length < 50) ∧
    ((V2.analyzeMarket [candle1]).signals.map
        (fun s => (s.action, s.confidence, s.stop_loss, s.take_profit)))
      = [(Action.HOLD, 50, 0, 0)] ∧
    ((50:ℚ) ≠ 25) ∧ ((0:ℚ) ≠ candle1.close) := by
  with_unfolding_all decide

/-- Claim C1 (corrected): the canonical `analyzeMarket` on any non-empty
history of fewer than 50 candles returns exactly one HOLD signal with
confidence 25, reason "Insufficient data for analysis", probability 50,
strength WEAK, and entry/stop/take-profit all pinned to the latest close;
the second copy of the analyzer instead uses confidence 50 and zero
stop/take prices below its 26-candle floor. -/
theorem claim1_amended (O : FloatOracle) (candles : List Candle)
    (hne : candles ≠ []) (h : candles.length < 50) :
    TechnicalAnalyzer.analyzeMarket O candles =
      { trend := Trend.SIDEWAYS, momentum := Momentum.NEUTRAL,
        volatility := VolLevel.MEDIUM,
        signals := [{ action := Action.HOLD, confidence := 25,
                      reason := "Insufficient data for analysis",
                      probability := 50, strength := Strength.WEAK,
                      entry_price := (candles.getLastD defaultCandle).close,
                      stop_loss := (candles.getLastD defaultCandle).close,
                      take_profit := (candles.getLastD defaultCandle).close }] } := by
  unfold TechnicalAnalyzer.analyzeMarket
  rw [if_pos (Or.inl h)]
  simp [TechnicalAnalyzer.insufficientSignal, hne]

/-- Witness for C1 at the single-candle history `[candle1]`. -/
theorem claim1_witness :
    TechnicalAnalyzer.analyzeMarket oracle0 [candle1] =
      { trend := Trend.SIDEWAYS, momentum := Momentum.NEUTRAL,
        volatility := VolLevel.MEDIUM,
        signals := [{ action := Action.HOLD, confidence := 25,
                      reason := "Insufficient data for analysis",
                      probability := 50, strength := Strength.WEAK,
                      entry_price := 1, stop_loss := 1, take_profit := 1 }] } :=
  claim1_amended oracle0 [candle1] (by decide) (by decide)

/-- Counterexample for C2 as stated: on a snapshot with a valid but tiny
positive ATR (`10⁻⁷`) the scorer returns a BUY whose rounded stop-loss
equals its rounded entry price (all three prices round to 1), so the strict
ordering `stop_loss < entry_price` fails after rounding to 5 decimals. -/
theorem claim2_counterexample :
    (0 < indTinyATR.atr) ∧
    (TechnicalAnalyzer.calculateCurrentTickSignal [candle1] indTinyATR 1
      Trend.BULLISH Momentum.NEUTRAL).action = Action.BUY ∧
    ¬((TechnicalAnalyzer.calculateCurrentTickSignal [candle1] indTinyATR 1
        Trend.BULLISH Momentum.NEUTRAL).stop_loss <
      (TechnicalAnalyzer.calculateCurrentTickSignal [candle1] indTinyATR 1
        Trend.BULLISH Momentum.NEUTRAL).entry_price) := by
  with_unfolding_all decide

/-- Claim C2 (corrected): the effective ATR is always positive, so the
ordering holds strictly before rounding (on the unrounded `rawStopTake`
prices the scorer derives and then rounds), but after rounding to 5 decimal
places only the non-strict ordering is guaranteed: BUY gives
`stop_loss ≤ entry_price ≤ take_profit`, SELL gives
`take_profit ≤ entry_price ≤ stop_loss`, and HOLD pins all three prices to
the (rounded) current price. -/
theorem claim2_amended (candles : List Candle) (indicators : TechnicalIndicators)
    (currentPrice : ℚ) (trend : Trend) (momentum : Momentum) :
    (0 < TechnicalAnalyzer.effectiveATR indicators) ∧
    ((TechnicalAnalyzer.calculateCurrentTickSignal candles indicators currentPrice
        trend momentum).stop_loss =
      round5 (TechnicalAnalyzer.rawStopTake indicators currentPrice
        (TechnicalAnalyzer.calculateCurrentTickSignal candles indicators currentPrice
          trend momentum).action).1 ∧
     (TechnicalAnalyzer.calculateCurrentTickSignal candles indicators currentPrice
        trend momentum).take_profit =
      round5 (TechnicalAnalyzer.rawStopTake indicators currentPrice
        (TechnicalAnalyzer.calculateCurrentTickSignal candles indicators currentPrice
          trend momentum).action).2 ∧
     (TechnicalAnalyzer.calculateCurrentTickSignal candles indicators currentPrice
        trend momentum).entry_price = round5 currentPrice) ∧
    ((TechnicalAnalyzer.calculateCurrentTickSignal candles indicators currentPrice
        trend momentum).action = Action.BUY →
      (TechnicalAnalyzer.rawStopTake indicators currentPrice Action.BUY).1 < currentPrice ∧
      currentPrice < (TechnicalAnalyzer.rawStopTake indicators currentPrice Action.BUY).2 ∧
      (TechnicalAnalyzer.calculateCurrentTickSignal candles indicators currentPrice
        trend momentum).stop_loss ≤
        (TechnicalAnalyzer.calculateCurrentTickSignal candles indicators currentPrice
          trend momentum).entry_price ∧
      (TechnicalAnalyzer.calculateCurrentTickSignal candles indicators currentPrice
        trend momentum).entry_price ≤
        (TechnicalAnalyzer.calculateCurrentTickSignal candles indicators currentPrice
          trend momentum).take_profit) ∧
    ((TechnicalAnalyzer.calculateCurrentTickSignal candles indicators currentPrice
        trend momentum).action = Action.SELL →
      (TechnicalAnalyzer.rawStopTake indicators currentPrice Action.SELL).2 < currentPrice ∧
      currentPrice < (TechnicalAnalyzer.rawStopTake indicators currentPrice Action.SELL).1 ∧
      (TechnicalAnalyzer.calculateCurrentTickSignal candles indicators currentPrice
        trend momentum).take_profit ≤
        (TechnicalAnalyzer.calculateCurrentTickSignal candles indicators currentPrice
          trend momentum).entry_price ∧
      (TechnicalAnalyzer.calculateCurrentTickSignal candles indicators currentPrice
        trend momentum).entry_price ≤
        (TechnicalAnalyzer.calculateCurrentTickSignal candles indicators currentPrice
          trend momentum).stop_loss) ∧
    ((TechnicalAnalyzer.calculateCurrentTickSignal candles indicators currentPrice
        trend momentum).action = Action.HOLD →
      (TechnicalAnalyzer.rawStopTake indicators currentPrice Action.HOLD).1 = currentPrice ∧
      (TechnicalAnalyzer.rawStopTake indicators currentPrice Action.HOLD).2 = currentPrice ∧
      (TechnicalAnalyzer.calculateCurrentTickSignal candles indicators currentPrice
        trend momentum).stop_loss =
        (TechnicalAnalyzer.calculateCurrentTickSignal candles indicators currentPrice
          trend momentum).entry_price ∧
      (TechnicalAnalyzer.calculateCurrentTickSignal candles indicators currentPrice
        trend momentum).take_profit =
        (TechnicalAnalyzer.calculateCurrentTickSignal candles indicators currentPrice
          trend momentum).entry_price) := by
  have hatr := effectiveATR_pos indicators
  refine ⟨hatr, ⟨?_, ?_, ?_⟩, fun hact => ?_, fun hact => ?_, fun hact => ?_⟩
  · simp only [TechnicalAnalyzer.calculateCurrentTickSignal,
      TechnicalAnalyzer.tickSignalBody]
  · simp only [TechnicalAnalyzer.calculateCurrentTickSignal,
      TechnicalAnalyzer.tickSignalBody]
  · simp only [TechnicalAnalyzer.calculateCurrentTickSignal,
      TechnicalAnalyzer.tickSignalBody]
  all_goals simp only [TechnicalAnalyzer.calculateCurrentTickSignal,
    TechnicalAnalyzer.tickSignalBody] at hact ⊢
  · rw [hact, rawStopTake_buy]
    dsimp only
    exact ⟨by linarith, by linarith,
      round5_mono (by linarith), round5_mono (by linarith)⟩
  · rw [hact, rawStopTake_sell]
    dsimp only
    exact ⟨by linarith, by linarith,
      round5_mono (by linarith), round5_mono (by linarith)⟩
  · rw [hact, rawStopTake_hold]
    dsimp only
    exact ⟨rfl, rfl, rfl, rfl⟩

/-- Witness for C2 at a neutral snapshot whose score is in the dead zone
(action HOLD). -/
theorem claim2_witness :
    (0 < TechnicalAnalyzer.effectiveATR TechnicalAnalyzer.neutralIndicators) ∧
    ((TechnicalAnalyzer.rawStopTake TechnicalAnalyzer.neutralIndicators 1 Action.HOLD).1 = 1 ∧
     (TechnicalAnalyzer.rawStopTake TechnicalAnalyzer.neutralIndicators 1 Action.HOLD).2 = 1 ∧
     (TechnicalAnalyzer.calculateCurrentTickSignal [candle1]
       TechnicalAnalyzer.neutralIndicators 1 Trend.SIDEWAYS Momentum.NEUTRAL).stop_loss =
       (TechnicalAnalyzer.calculateCurrentTickSignal [candle1]
         TechnicalAnalyzer.neutralIndicators 1 Trend.SIDEWAYS Momentum.NEUTRAL).entry_price ∧
     (TechnicalAnalyzer.calculateCurrentTickSignal [candle1]
       TechnicalAnalyzer.neutralIndicators 1 Trend.SIDEWAYS Momentum.NEUTRAL).take_profit =
       (TechnicalAnalyzer.calculateCurrentTickSignal [candle1]
         TechnicalAnalyzer.neutralIndicators 1 Trend.SIDEWAYS Momentum.NEUTRAL).entry_price) :=
  ⟨(claim2_amended [candle1] TechnicalAnalyzer.neutralIndicators 1 Trend.SIDEWAYS
      Momentum.NEUTRAL).1,
   (claim2_amended [candle1] TechnicalAnalyzer.neutralIndicators 1 Trend.SIDEWAYS
      Momentum.NEUTRAL).2.2.2.2 (by with_unfolding_all decide)⟩

/-- Counterexample for C4 as stated: two mirrored snapshot inputs at price 1
(`indMirrorBuy` and `indMirrorSell`, negating RSI distance from 50, price
vs. SMA20 and the EMA ordering) give scores `+7` and `−7`, yet one maps to
(BUY, MODERATE) and the other to (SELL, STRONG): the strength cutoffs are
not mirror images (BUY 5/8/12, SELL −4/−7/−10). -/
theorem claim4_counterexample :
    TechnicalAnalyzer.tickScore [candle1] indMirrorBuy 1 Trend.SIDEWAYS = 7 ∧
    TechnicalAnalyzer.tickScore [candle1] indMirrorSell 1 Trend.SIDEWAYS = -7 ∧
    (TechnicalAnalyzer.calculateCurrentTickSignal [candle1] indMirrorBuy 1
      Trend.SIDEWAYS Momentum.NEUTRAL).action = Action.BUY ∧
    (TechnicalAnalyzer.calculateCurrentTickSignal [candle1] indMirrorBuy 1
      Trend.SIDEWAYS Momentum.NEUTRAL).strength = Strength.MODERATE ∧
    (TechnicalAnalyzer.calculateCurrentTickSignal [candle1] indMirrorSell 1
      Trend.SIDEWAYS Momentum.NEUTRAL).action = Action.SELL ∧
    (TechnicalAnalyzer.calculateCurrentTickSignal [candle1] indMirrorSell 1
      Trend.SIDEWAYS Momentum.NEUTRAL).strength = Strength.STRONG ∧
    Strength.MODERATE ≠ Strength.STRONG := by
  with_unfolding_all decide

/-- Claim C4 (corrected): negating the score still flips BUY to SELL, but
the tiers are not mirrored — the SELL side fires at one point lower
magnitude (cutoffs 5/8/12 vs. −4/−7/−10), so the mirrored SELL is at least
as strong as the BUY it mirrors (and strictly stronger at scores 7, 10
and 11). -/
theorem claim4_amended (s : ℤ)
    (h : (TechnicalAnalyzer.decisionOf s).action = Action.BUY) :
    (TechnicalAnalyzer.decisionOf (-s)).action = Action.SELL ∧
      strengthRank (TechnicalAnalyzer.decisionOf s).strength ≤
        strengthRank (TechnicalAnalyzer.decisionOf (-s)).strength := by
  unfold TechnicalAnalyzer.decisionOf at *
  split_ifs at h ⊢ <;> simp_all [strengthRank] <;> omega

/-- Witness for C4 at score 5. -/
theorem claim4_witness :
    ((TechnicalAnalyzer.decisionOf (5:ℤ)).action = Action.BUY) ∧
      ((TechnicalAnalyzer.decisionOf (-(5:ℤ))).action = Action.SELL ∧
        strengthRank (TechnicalAnalyzer.decisionOf (5:ℤ)).strength ≤
          strengthRank (TechnicalAnalyzer.decisionOf (-(5:ℤ))).strength) :=
  ⟨by with_unfolding_all decide, claim4_amended 5 (by with_unfolding_all decide)⟩

/-- Counterexample for C3 as stated: the 50-candle history `csDeadZone`
scores 2 (inside the dead zone), and `analyzeMarket` returns HOLD, WEAK,
confidence 25 — but probability 38, not 50, because the base probability 50
is multiplied by the historical-accuracy factor 0.75 and rounded. -/
theorem claim3_counterexample :
    (50 ≤ csDeadZone.length) ∧
    TechnicalAnalyzer.tickScore csDeadZone
      (TechnicalAnalyzer.getTechnicalIndicators csDeadZone)
      ((csDeadZone.getLastD defaultCandle).close)
      (TechnicalAnalyzer.getTechnicalIndicators csDeadZone).trend = 2 ∧
    ((TechnicalAnalyzer.analyzeMarket oracle0 csDeadZone).signals.map
        (fun s => (s.action, s.strength, s.confidence, s.probability))) =
      [(Action.HOLD, Strength.WEAK, 25, 38)] ∧
    ((38:ℚ) ≠ 50) := by
  with_unfolding_all decide

/-- Claim C3 (corrected): with at least 50 candles and a dead-zone score,
the single returned signal is HOLD/WEAK with confidence 25, but its
probability is `round (50 × historicalAccuracy)`, which lies in `[38, 45]`
and never equals 50. -/
theorem claim3_amended (O : FloatOracle) (candles : List Candle)
    (h50 : 50 ≤ candles.length)
    (h1 : -4 < TechnicalAnalyzer.tickScore candles
      (TechnicalAnalyzer.getTechnicalIndicators candles)
      ((candles.getLastD defaultCandle).close)
      (TechnicalAnalyzer.getTechnicalIndicators candles).trend)
    (h2 : TechnicalAnalyzer.tickScore candles
      (TechnicalAnalyzer.getTechnicalIndicators candles)
      ((candles.getLastD defaultCandle).close)
      (TechnicalAnalyzer.getTechnicalIndicators candles).trend < 5) :
    ∃ sig, (TechnicalAnalyzer.analyzeMarket O candles).signals = [sig] ∧
      sig.action = Action.HOLD ∧ sig.strength = Strength.WEAK ∧
      sig.confidence = 25 ∧
      sig.probability = jsRound (50 * TechnicalAnalyzer.calculateHistoricalAccuracy
        candles (TechnicalAnalyzer.getTechnicalIndicators candles)) ∧
      38 ≤ sig.probability ∧ sig.probability ≤ 45 := by
  have hne : candles ≠ [] := by
    intro hcontra
    rw [hcontra] at h50
    simp at h50
  have hcond : ¬(candles.length < 50 ∨ candles = []) := by
    push_neg
    exact ⟨by omega, hne⟩
  have hsig := tickSignal_dead_zone candles
    (TechnicalAnalyzer.getTechnicalIndicators candles)
    ((candles.getLastD defaultCandle).close)
    (TechnicalAnalyzer.getTechnicalIndicators candles).trend
    (TechnicalAnalyzer.getTechnicalIndicators candles).momentum h1 h2
  have hbounds := jsRound_accuracy_bounds candles
    (TechnicalAnalyzer.getTechnicalIndicators candles)
  unfold TechnicalAnalyzer.analyzeMarket
  rw [if_neg hcond]
  refine ⟨TechnicalAnalyzer.calculateCurrentTickSignal candles
    (TechnicalAnalyzer.getTechnicalIndicators candles)
    ((candles.getLastD defaultCandle).close)
    (TechnicalAnalyzer.getTechnicalIndicators candles).trend
    (TechnicalAnalyzer.getTechnicalIndicators candles).momentum, rfl,
    hsig.1, hsig.2.1, hsig.2.2.1, hsig.2.2.2, ?_, ?_⟩
  · rw [hsig.2.2.2]
    exact hbounds.1
  · rw [hsig.2.2.2]
    exact hbounds.2

/-- Witness for C3 at the 50-candle dead-zone history `csDeadZone`. -/
theorem claim3_witness :
    ∃ sig, (TechnicalAnalyzer.analyzeMarket oracle0 csDeadZone).signals = [sig] ∧
      sig.action = Action.HOLD ∧ sig.strength = Strength.WEAK ∧
      sig.confidence = 25 ∧
      sig.probability = jsRound (50 * TechnicalAnalyzer.calculateHistoricalAccuracy
        csDeadZone (TechnicalAnalyzer.getTechnicalIndicators csDeadZone)) ∧
      38 ≤ sig.probability ∧ sig.probability ≤ 45 :=
  claim3_amended oracle0 csDeadZone (by with_unfolding_all decide)
    (by with_unfolding_all decide) (by with_unfolding_all decide)

/-- Witness for C5 at the BUY input `indMirrorBuy`. -/
theorem claim5_witness :
    ((TechnicalAnalyzer.calculateCurrentTickSignal [candle1] indMirrorBuy 1
        Trend.SIDEWAYS Momentum.NEUTRAL).action ≠ Action.HOLD) ∧
      (TechnicalAnalyzer.calculateCurrentTickSignal [candle1] indMirrorBuy 1
        Trend.SIDEWAYS Momentum.NEUTRAL).confidence = 0 :=
  ⟨by with_unfolding_all decide,
   claim5_actionable_confidence_zero [candle1] indMirrorBuy 1 Trend.SIDEWAYS
     Momentum.NEUTRAL (by with_unfolding_all decide)⟩

end Fever
